import Mathlib

/-!
Verification of the ego-vehicle sensor relay script
(`src/tnex_driver/src/simulator/ego_vehicle.py`).

The development shallowly embeds the script's three pieces:

1. the frame converter `get_cv_image`, modelled over a small fragment of
   numpy's strided-view semantics (`np.frombuffer`, `np.reshape`, basic
   slicing and negative-step slicing all return views sharing the
   underlying buffer, never copies);
2. the publish pipeline `publish_image` / `publish_image_and_viz`,
   modelled as event traces in an exception-aware result type
   (the two `try` blocks, the caught exception classes, and the
   in-place `carla_image.convert` colorization are embedded faithfully);
3. the `finally`-block teardown of `main`, modelled as a sequential
   list of guarded destroy calls that aborts when a destroy raises.
-/

/-! ## Numpy strided-view model

A buffer heap maps a buffer id to its current byte contents; a view
(`NDView`) holds a buffer id, a byte offset, a shape and signed strides.
All four numpy operations used by `get_cv_image` produce views over the
same buffer id, exactly as numpy does. -/

/-- A strided numpy view: buffer id, element offset, shape, signed strides. -/
structure NDView where
  buf : Nat
  offset : Int
  shape : List Nat
  strides : List Int
deriving Repr, DecidableEq

/-- Flat address of a multi-index through a view (offset plus the
stride-weighted sum of the indices). -/
def vaddr (v : NDView) (idx : List Nat) : Int :=
  v.offset + (List.zipWith (fun i s => (i : Int) * s) idx v.strides).sum

/-- Read one element of a view out of the current heap contents. -/
def readV (heap : Nat → List Nat) (v : NDView) (idx : List Nat) : Nat :=
  (heap v.buf).getD (vaddr v idx).toNat 0

/-- `np.frombuffer(raw_data, dtype=uint8)`: a 1-d stride-1 view of the
whole buffer, sharing its memory. -/
def np_frombuffer (bufId : Nat) (len : Nat) : NDView :=
  { buf := bufId, offset := 0, shape := [len], strides := [1] }

/-- `np.reshape(v, (h, w, k))` on a 1-d view: succeeds iff the element
count matches `h*w*k` exactly (numpy raises `ValueError: cannot reshape`
otherwise; it never truncates or pads), and returns a view. -/
def np_reshape3 (v : NDView) (h w k : Nat) : Option NDView :=
  match v.shape, v.strides with
  | [n], [s] =>
    if n = h * w * k then
      some { buf := v.buf, offset := v.offset,
             shape := [h, w, k],
             strides := [(w : Int) * (k : Int) * s, (k : Int) * s, s] }
    else none
  | _, _ => none

/-- `v[:, :, :3]`: basic slicing, keeps the first `min 3 k` entries of the
last axis; strides unchanged, still a view. -/
def np_slice_first3 (v : NDView) : Option NDView :=
  match v.shape, v.strides with
  | [a, b, k], [s1, s2, s3] =>
    some { buf := v.buf, offset := v.offset, shape := [a, b, min 3 k],
           strides := [s1, s2, s3] }
  | _, _ => none

/-- `v[:, :, ::-1]`: reverses the last axis by moving the offset to its
last element and negating the stride; still a view. -/
def np_reverse_last (v : NDView) : Option NDView :=
  match v.shape, v.strides with
  | [a, b, k], [s1, s2, s3] =>
    some { buf := v.buf, offset := v.offset + ((k : Int) - 1) * s3,
           shape := [a, b, k], strides := [s1, s2, -s3] }
  | _, _ => none

/-- A carla image as seen by the script: `height`, `width`, and the buffer
id of its `raw_data` (whose current bytes live in the heap). -/
structure CarlaImage where
  height : Nat
  width : Nat
  buf : Nat
deriving Repr, DecidableEq

/-- Embedding of `get_cv_image` (ego_vehicle.py lines 16-21):
`frombuffer` then `reshape (h, w, 4)` then `[:, :, :3]` then `[:, :, ::-1]`.
`none` models the uncaught `ValueError` raised by a mismatched reshape. -/
def get_cv_image (heap : Nat → List Nat) (img : CarlaImage) : Option NDView :=
  let v0 := np_frombuffer img.buf (heap img.buf).length
  (np_reshape3 v0 img.height img.width 4).bind fun v1 =>
    (np_slice_first3 v1).bind fun v2 => np_reverse_last v2

/-- The view `get_cv_image` returns, when the buffer length matches. -/
def rgbView (img : CarlaImage) : NDView :=
  { buf := img.buf, offset := 2, shape := [img.height, img.width, 3],
    strides := [(img.width : Int) * 4, 4, -1] }

lemma get_cv_image_eq (heap : Nat → List Nat) (img : CarlaImage)
    (hlen : (heap img.buf).length = img.height * img.width * 4) :
    get_cv_image heap img = some (rgbView img) := by
  simp only [get_cv_image, np_frombuffer, np_reshape3, hlen, if_true,
    np_slice_first3, np_reverse_last, Option.bind_some, Option.some_bind, rgbView]
  norm_num

lemma readV_rgbView (heap : Nat → List Nat) (img : CarlaImage)
    (i j c : Nat) (hc : c < 3) :
    readV heap (rgbView img) [i, j, c] =
      (heap img.buf).getD ((i * img.width + j) * 4 + (2 - c)) 0 := by
  have haddr : (vaddr (rgbView img) [i, j, c]).toNat =
      (i * img.width + j) * 4 + (2 - c) := by
    simp only [vaddr, rgbView, List.zipWith, List.sum_cons, List.sum_nil]
    have hprod : (i : Int) * ((img.width : Int) * 4) =
        ((i * img.width : Nat) : Int) * 4 := by
      push_cast
      ring
    rw [hprod]
    omega
  unfold readV
  rw [haddr]
  rfl

/-- C1: for a raw buffer of length `h*w*4` read as row-major BGRA,
`get_cv_image` yields an `h × w × 3` array whose pixel `(i, j)` channel `c`
is the input byte at offset `(i*w+j)*4 + (2-c)`: alpha dropped, red and
blue swapped. -/
theorem get_cv_image_bgra_to_rgb (heap : Nat → List Nat) (img : CarlaImage)
    (hlen : (heap img.buf).length = img.height * img.width * 4)
    (i j c : Nat) (hi : i < img.height) (hj : j < img.width) (hc : c < 3) :
    ∃ v, get_cv_image heap img = some v ∧
      v.shape = [img.height, img.width, 3] ∧
      readV heap v [i, j, c] =
        (heap img.buf).getD ((i * img.width + j) * 4 + (2 - c)) 0 :=
  ⟨rgbView img, get_cv_image_eq heap img hlen, rfl,
    readV_rgbView heap img i j c hc⟩

/-- Concrete heap for the C1 witness: buffer 0 holds one BGRA pixel. -/
def heapW : Nat → List Nat := fun b => if b = 0 then [10, 20, 30, 40] else []

/-- The 1×1 image over buffer 0 used by the witnesses. -/
def imgW : CarlaImage := { height := 1, width := 1, buf := 0 }

/-- C1 witness: on a concrete 1×1 BGRA pixel `[10, 20, 30, 40]`,
channel 0 of the output is the input's byte at offset 2 (the red byte). -/
theorem get_cv_image_bgra_to_rgb_witness :
    ∃ v, get_cv_image heapW imgW = some v ∧
      v.shape = [1, 1, 3] ∧
      readV heapW v [0, 0, 0] = (heapW imgW.buf).getD 2 0 := by
  have h := get_cv_image_bgra_to_rgb heapW imgW (by decide) 0 0 0
    (by decide) (by decide) (by decide)
  simpa [imgW] using h

/-- C5: when the raw buffer length differs from `h*w*4`, the reshape
raises (`none`): conversion fails loudly, no truncated or padded image is
ever produced. -/
theorem get_cv_image_shape_mismatch_fails (heap : Nat → List Nat)
    (img : CarlaImage)
    (hlen : (heap img.buf).length ≠ img.height * img.width * 4) :
    get_cv_image heap img = none := by
  simp only [get_cv_image, np_frombuffer, np_reshape3, hlen, if_false,
    Option.none_bind]

/-- Heap for the C5 witness: buffer 0 holds 3 bytes, not `1*1*4`. -/
def heapShort : Nat → List Nat := fun b => if b = 0 then [1, 2, 3] else []

/-- C5 witness: a 3-byte buffer for a 1×1 image makes conversion fail. -/
theorem get_cv_image_shape_mismatch_fails_witness :
    get_cv_image heapShort imgW = none :=
  get_cv_image_shape_mismatch_fails heapShort imgW (by decide)

/-- Heap before the in-place mutation: buffer 0 is `[1, 2, 3, 4]`. -/
def heapC8 : Nat → List Nat := fun b => if b = 0 then [1, 2, 3, 4] else []

/-- Heap after an in-place mutation of buffer 0 (as `convert` performs). -/
def heapC8mut : Nat → List Nat := fun b => if b = 0 then [1, 2, 9, 4] else []

/-- C8 counterexample: the array returned by `get_cv_image` is a view of
the raw buffer, not an independent copy: mutating the buffer in place
(bytes `[1,2,3,4]` to `[1,2,9,4]`) changes the already-returned array's
channel-0 byte from 3 to 9. -/
theorem get_cv_image_view_cex :
    ∃ v, get_cv_image heapC8 imgW = some v ∧
      readV heapC8 v [0, 0, 0] = 3 ∧
      readV heapC8mut v [0, 0, 0] = 9 ∧
      readV heapC8mut v [0, 0, 0] ≠ readV heapC8 v [0, 0, 0] := by
  refine ⟨rgbView imgW, ?_, by decide, by decide, by decide⟩
  exact get_cv_image_eq heapC8 imgW (by decide)

/-- C8 amended: the returned array is a live view of the input buffer:
reading it through any later heap state reflects that heap's current
buffer bytes at offset `(i*w+j)*4 + (2-c)`, so an in-place mutation of the
raw buffer is visible through the returned array. -/
theorem get_cv_image_is_view (heap heap2 : Nat → List Nat)
    (img : CarlaImage) (v : NDView)
    (hlen : (heap img.buf).length = img.height * img.width * 4)
    (hv : get_cv_image heap img = some v)
    (i j c : Nat) (hc : c < 3) :
    readV heap2 v [i, j, c] =
      (heap2 img.buf).getD ((i * img.width + j) * 4 + (2 - c)) 0 := by
  have hveq : v = rgbView img := by
    have h := get_cv_image_eq heap img hlen
    rw [hv] at h
    exact Option.some_injective _ h
  rw [hveq]
  exact readV_rgbView heap2 img i j c hc

/-- C8 amended witness: the view produced over `heapC8` read through the
mutated heap returns the mutated byte. -/
theorem get_cv_image_is_view_witness :
    readV heapC8mut (rgbView imgW) [0, 0, 0] =
      (heapC8mut imgW.buf).getD 2 0 := by
  have h := get_cv_image_is_view heapC8 heapC8mut imgW (rgbView imgW)
    (by decide) (get_cv_image_eq heapC8 imgW (by decide)) 0 0 0 (by decide)
  simpa [imgW] using h

/-! ## Publish pipeline model

`publish_image` (lines 23-34) has two `try` blocks. The first runs
`get_cv_image` and `cv_bridge.cv2_to_imgmsg`, catching only
`CvBridgeError`; on that exception it logs and leaves `image_message`
unbound. The second block unconditionally builds a publisher and calls
`publisher.publish(image_message)`, catching only `ROSInterruptException`;
when `image_message` is unbound this read raises `UnboundLocalError`,
which no handler catches, so it propagates out of the function (and out
of the sensor capture callback that called it).

The embedding records the side effects as an event trace and the
uncaught exception (if any) in `err`. The oracle `convertOk` is true iff
the first block's conversion succeeds (no `CvBridgeError`); `rosOk` is
true iff the publish call raises no `ROSInterruptException`. A publish
event carries the frame bytes the published message was built from. -/

/-- An uncaught Python exception escaping a callback. -/
inductive PyErr where
  | unboundLocal
deriving Repr, DecidableEq

/-- Observable side effects of the publish pipeline. -/
inductive Event where
  | publish (topic : String) (frame : List Nat)
  | logCvBridgeError
  | logROSInterrupt
  | convertInPlace (kind : String)
deriving Repr, DecidableEq

/-- Trace of events plus the uncaught exception, if one escaped. -/
structure PubResult where
  events : List Event
  err : Option PyErr
deriving Repr, DecidableEq

/-- Embedding of `publish_image` (lines 23-34). -/
def publish_image (convertOk rosOk : Bool) (frame : List Nat)
    (topic : String) : PubResult :=
  if convertOk then
    if rosOk then { events := [Event.publish topic frame], err := none }
    else { events := [Event.logROSInterrupt], err := none }
  else
    { events := [Event.logCvBridgeError], err := some PyErr.unboundLocal }

/-- Embedding of `publish_image_and_viz` (lines 36-44): publish the raw
frame on `topic`; then, for the two special camera types, convert the
frame in place with the matching color converter; then publish the
(possibly converted) frame on `topic ++ "_viz"`. The carla color
converters are opaque byte transforms `segConv` / `depthConv`. An
exception escaping the first `publish_image` aborts the rest. -/
def publish_image_and_viz (segConv depthConv : List Nat → List Nat)
    (cOk1 rOk1 cOk2 rOk2 : Bool) (frame : List Nat)
    (topic camera_type : String) : PubResult :=
  let r1 := publish_image cOk1 rOk1 frame topic
  match r1.err with
  | some e => { events := r1.events, err := some e }
  | none =>
    let step : List Event × List Nat :=
      if camera_type = "semantic_segmentation" then
        ([Event.convertInPlace camera_type], segConv frame)
      else if camera_type = "depth" then
        ([Event.convertInPlace camera_type], depthConv frame)
      else ([], frame)
    let r2 := publish_image cOk2 rOk2 step.2 (topic ++ "_viz")
    { events := r1.events ++ step.1 ++ r2.events, err := r2.err }

/-- Embedding of the four `listen` callbacks registered in `main`
(lines 101-106), dispatching on the sensor's name. -/
def sensor_listener (segConv depthConv : List Nat → List Nat)
    (cOk1 rOk1 cOk2 rOk2 : Bool) (sensor : String)
    (frame : List Nat) : PubResult :=
  if sensor = "camera_main_rgb" then
    publish_image cOk1 rOk1 frame "camera_main_rgb"
  else if sensor = "camera_main_semantic_segmentation" then
    publish_image_and_viz segConv depthConv cOk1 rOk1 cOk2 rOk2 frame
      "camera_main_semantic_segmentation" "semantic_segmentation"
  else if sensor = "camera_main_depth" then
    publish_image_and_viz segConv depthConv cOk1 rOk1 cOk2 rOk2 frame
      "camera_main_depth" "depth"
  else if sensor = "camera_3pv_rgb" then
    publish_image cOk1 rOk1 frame "camera_3pv_rgb"
  else { events := [], err := none }

/-- C2: when conversion fails (a `CvBridgeError`), `publish_image` logs
the error and publishes nothing for that frame, but then the second
`try` block reads the unbound `image_message` and an `UnboundLocalError`
escapes the function uncaught, crashing the capture callback - contrary
to the contained, per-frame error handling the spec requires. -/
theorem publish_image_conversion_failure_raises :
    (publish_image false true [0] "camera_main_rgb").events =
      [Event.logCvBridgeError] ∧
    (publish_image false true [0] "camera_main_rgb").err =
      some PyErr.unboundLocal :=
  ⟨rfl, rfl⟩

/-- C3: for the `semantic_segmentation` and `depth` camera types, a
capture produces exactly two publishes: first the unmodified frame on the
base topic, then - only after the raw publish - the in-place colorization,
then the converted frame on the `_viz`-suffixed topic. -/
theorem publish_image_and_viz_two_publishes
    (segConv depthConv : List Nat → List Nat) (frame : List Nat)
    (topic camera_type : String)
    (hkind : camera_type = "semantic_segmentation" ∨ camera_type = "depth") :
    (publish_image_and_viz segConv depthConv true true true true frame
        topic camera_type).events =
      [Event.publish topic frame,
       Event.convertInPlace camera_type,
       Event.publish (topic ++ "_viz")
         (if camera_type = "semantic_segmentation" then segConv frame
          else depthConv frame)] := by
  rcases hkind with h | h <;> subst h <;>
    simp [publish_image_and_viz, publish_image]

/-- Color converter stand-in used by the witnesses (palette remap). -/
def segConvW : List Nat → List Nat := fun l => 0 :: l

/-- Color converter stand-in used by the witnesses (depth remap). -/
def depthConvW : List Nat → List Nat := fun l => 1 :: l

/-- C3 witness: a concrete depth capture yields the raw publish on
`camera_main_depth`, the in-place conversion, then the converted frame on
`camera_main_depth_viz`. -/
theorem publish_image_and_viz_two_publishes_witness :
    (publish_image_and_viz segConvW depthConvW true true true true [5]
        "camera_main_depth" "depth").events =
      [Event.publish "camera_main_depth" [5],
       Event.convertInPlace "depth",
       Event.publish "camera_main_depth_viz" [1, 5]] := by
  have h := publish_image_and_viz_two_publishes segConvW depthConvW [5]
    "camera_main_depth" "depth" (Or.inr rfl)
  simpa [segConvW, depthConvW] using h

/-- C9: a capture from either rgb sensor (`camera_main_rgb` or
`camera_3pv_rgb`) triggers exactly one publish, on the base channel named
after the sensor; no `_viz`-suffixed publish occurs. -/
theorem rgb_capture_single_publish (segConv depthConv : List Nat → List Nat)
    (sensor : String) (frame : List Nat)
    (hrgb : sensor = "camera_main_rgb" ∨ sensor = "camera_3pv_rgb") :
    (sensor_listener segConv depthConv true true true true sensor
        frame).events = [Event.publish sensor frame] ∧
    ∀ f, Event.publish (sensor ++ "_viz") f ∉
      (sensor_listener segConv depthConv true true true true sensor
        frame).events := by
  rcases hrgb with h | h <;> subst h <;>
    refine ⟨by simp [sensor_listener, publish_image], fun f hmem => ?_⟩ <;>
    simp [sensor_listener, publish_image] at hmem

/-- C9 witness: the third-person rgb camera publishes exactly once, on
`camera_3pv_rgb`. -/
theorem rgb_capture_single_publish_witness :
    (sensor_listener segConvW depthConvW true true true true
        "camera_3pv_rgb" [7]).events = [Event.publish "camera_3pv_rgb" [7]] ∧
    ∀ f, Event.publish ("camera_3pv_rgb" ++ "_viz") f ∉
      (sensor_listener segConvW depthConvW true true true true
        "camera_3pv_rgb" [7]).events :=
  rgb_capture_single_publish segConvW depthConvW "camera_3pv_rgb" [7]
    (Or.inr rfl)

/-- C10: called with a camera type outside the two special kinds,
`publish_image_and_viz` still publishes twice - the unmodified frame on
both the base topic and the `_viz` topic, with no in-place conversion
between the two publishes. -/
theorem publish_image_and_viz_other_kind
    (segConv depthConv : List Nat → List Nat) (frame : List Nat)
    (topic camera_type : String)
    (h1 : camera_type ≠ "semantic_segmentation") (h2 : camera_type ≠ "depth") :
    (publish_image_and_viz segConv depthConv true true true true frame
        topic camera_type).events =
      [Event.publish topic frame, Event.publish (topic ++ "_viz") frame] := by
  simp [publish_image_and_viz, publish_image, h1, h2]

/-- C10 witness: camera type `rgb` publishes the same frame on the base
and `_viz` topics with no conversion event. -/
theorem publish_image_and_viz_other_kind_witness :
    (publish_image_and_viz segConvW depthConvW true true true true [5]
        "camera_main_rgb" "rgb").events =
      [Event.publish "camera_main_rgb" [5],
       Event.publish "camera_main_rgb_viz" [5]] := by
  have h := publish_image_and_viz_other_kind segConvW depthConvW [5]
    "camera_main_rgb" "rgb" (by decide) (by decide)
  simpa using h

/-! ## Teardown model

`main` (lines 46-122) initializes five actor variables to `None`, spawns
them in a fixed order inside a `try` body (vehicle first, then the four
cameras), and its `finally` block runs five sequential guarded destroys:
`if actor is not None: actor.destroy()`, vehicle first. A destroy that
raises aborts the remaining statements of the `finally` block, since the
block has no per-statement exception handling.

Because spawning is strictly sequential, the set of successfully created
actors on any exit path is a prefix of the spawn order; the exit reason
(a setup failure after `k` spawns, an exception in the tick loop, or an
interrupt - the `while True` loop never exits normally) determines that
prefix. The `finally` block runs on every such exit path. -/

/-- The five actors `main` spawns. -/
inductive Actor where
  | egoVehicle
  | cameraMainRgb
  | cameraMainSemanticSegmentation
  | cameraMainDepth
  | camera3pvRgb
deriving Repr, DecidableEq

/-- Position of an actor in the spawn sequence of `main`. -/
def actorIndex : Actor → Nat
  | .egoVehicle => 0
  | .cameraMainRgb => 1
  | .cameraMainSemanticSegmentation => 2
  | .cameraMainDepth => 3
  | .camera3pvRgb => 4

/-- Spawn order of `main` (lines 70, 94-97): the vehicle, then the four
cameras. The `finally` block's guarded destroys run in this same order
(lines 112-121). -/
def spawnOrder : List Actor :=
  [Actor.egoVehicle, Actor.cameraMainRgb,
   Actor.cameraMainSemanticSegmentation, Actor.cameraMainDepth,
   Actor.camera3pvRgb]

/-- Sequential guarded destroys of the `finally` block over a list of
actor variables: a variable still `None` (`created a = false`) is
skipped; a destroy that raises (`destroyOk a = false`) stops the block
and lets the exception propagate. Returns the list of destroy calls
actually made and whether the block ran to completion. -/
def teardownSeq (created destroyOk : Actor → Bool) :
    List Actor → List Actor × Bool
  | [] => ([], true)
  | a :: rest =>
    if created a then
      if destroyOk a then
        let r := teardownSeq created destroyOk rest
        (a :: r.1, r.2)
      else ([a], false)
    else teardownSeq created destroyOk rest

/-- Exit paths of `main`: a setup exception after `k` successful spawns,
an exception from the tick loop, or a keyboard interrupt. (The
`while True` loop has no normal exit.) -/
inductive ExitReason where
  | setupFailure (k : Fin 6)
  | exception
  | interrupt
deriving Repr, DecidableEq

/-- Number of actors successfully spawned before the exit. -/
def createdCount : ExitReason → Nat
  | .setupFailure k => k.val
  | .exception => 5
  | .interrupt => 5

/-- Whether an actor variable is set (not `None`) on a given exit path:
spawning is sequential, so exactly the first `createdCount` actors are. -/
def createdAt (r : ExitReason) (a : Actor) : Bool :=
  actorIndex a < createdCount r

/-- The `finally` block of `main` on a given exit path. -/
def main_teardown (r : ExitReason) (destroyOk : Actor → Bool) :
    List Actor × Bool :=
  teardownSeq (createdAt r) destroyOk spawnOrder

lemma teardownSeq_all_ok (created destroyOk : Actor → Bool)
    (hok : ∀ a, destroyOk a = true) (l : List Actor) :
    teardownSeq created destroyOk l = (l.filter created, true) := by
  induction l with
  | nil => rfl
  | cons a rest ih =>
    simp only [teardownSeq, hok a, if_true, ih, List.filter]
    by_cases h : created a <;> simp [h]

lemma count_filter_spawnOrder (p : Actor → Bool) (a : Actor) :
    ((spawnOrder.filter p).count a) = if p a then 1 else 0 := by
  cases a <;>
    cases h0 : p Actor.egoVehicle <;>
    cases h1 : p Actor.cameraMainRgb <;>
    cases h2 : p Actor.cameraMainSemanticSegmentation <;>
    cases h3 : p Actor.cameraMainDepth <;>
    cases h4 : p Actor.camera3pvRgb <;>
    simp [spawnOrder, List.filter, h0, h1, h2, h3, h4, List.count_cons]

/-- C4: on every exit path of `main`, when no destroy call itself raises,
the `finally` block completes without raising, calls `destroy` exactly
once on each actor that was successfully created, and never calls it on
an actor variable still unset (so no actor is destroyed twice or left
dangling). -/
theorem main_teardown_destroys_created_once (r : ExitReason)
    (destroyOk : Actor → Bool) (hok : ∀ a, destroyOk a = true) :
    (main_teardown r destroyOk).2 = true ∧
    ∀ a : Actor, (main_teardown r destroyOk).1.count a =
      if createdAt r a then 1 else 0 := by
  rw [main_teardown, teardownSeq_all_ok (createdAt r) destroyOk hok]
  exact ⟨rfl, fun a => count_filter_spawnOrder (createdAt r) a⟩

/-- C4 witness: a setup failure after three spawns (vehicle plus two
cameras) destroys exactly those three, once each, and skips the two
never-created cameras without raising. -/
theorem main_teardown_destroys_created_once_witness :
    (main_teardown (ExitReason.setupFailure 3) (fun _ => true)).2 = true ∧
    ∀ a : Actor,
      (main_teardown (ExitReason.setupFailure 3) (fun _ => true)).1.count a =
        if createdAt (ExitReason.setupFailure 3) a then 1 else 0 :=
  main_teardown_destroys_created_once (ExitReason.setupFailure 3)
    (fun _ => true) (fun _ => rfl)

/-- Destroy outcome where the vehicle's destroy raises and every other
destroy would succeed. -/
def destroyFailEgo : Actor → Bool := fun a =>
  match a with
  | Actor.egoVehicle => false
  | _ => true

/-- C6 counterexample: with all five actors created, if the vehicle's
destroy raises, the `finally` block stops there: the destroy of
`camera_main_rgb` (a successfully created remaining actor) is never
attempted, so teardown is not best-effort. -/
theorem teardown_not_best_effort_cex :
    createdAt ExitReason.interrupt Actor.cameraMainRgb = true ∧
    destroyFailEgo Actor.egoVehicle = false ∧
    (main_teardown ExitReason.interrupt destroyFailEgo).1 =
      [Actor.egoVehicle] ∧
    Actor.cameraMainRgb ∉ (main_teardown ExitReason.interrupt destroyFailEgo).1 ∧
    (main_teardown ExitReason.interrupt destroyFailEgo).2 = false := by
  refine ⟨rfl, rfl, rfl, ?_, rfl⟩
  decide

lemma teardownSeq_after_fail (created destroyOk : Actor → Bool) (a : Actor)
    (hca : created a = true) (hda : destroyOk a = false) :
    ∀ l1 l2 : List Actor,
      (teardownSeq created destroyOk (l1 ++ a :: l2)).1 ⊆ l1 ++ [a] := by
  intro l1
  induction l1 with
  | nil =>
    intro l2
    simp [teardownSeq, hca, hda]
  | cons x l1' ih =>
    intro l2
    simp only [List.cons_append, teardownSeq]
    by_cases hx : created x
    · by_cases hdx : destroyOk x
      · simp only [hx, hdx, if_true]
        intro b hb
        rcases List.mem_cons.mp hb with hbx | hbrest
        · exact List.mem_cons.mpr (Or.inl hbx)
        · exact List.mem_cons.mpr (Or.inr (ih l2 hbrest))
      · simp only [hx, hdx, if_true, if_false]
        intro b hb
        rcases List.mem_singleton.mp hb with hbx
        exact List.mem_cons.mpr (Or.inl hbx)
    · simp only [hx, if_false]
      intro b hb
      exact List.mem_cons.mpr (Or.inr (ih l2 hb))

lemma spawnOrder_split (a : Actor) :
    spawnOrder = spawnOrder.take (actorIndex a) ++
      a :: spawnOrder.drop (actorIndex a + 1) := by
  cases a <;> rfl

lemma mem_take_le_actorIndex {a b : Actor}
    (h : b ∈ spawnOrder.take (actorIndex a) ++ [a]) :
    actorIndex b ≤ actorIndex a := by
  cases a <;> cases b <;> revert h <;> decide

/-- C6 amended: teardown destroy attempts are not independent: they run
in spawn order and stop at the first destroy that raises, so a created
actor occurring after a created actor whose destroy fails is never
destroyed (and the exception propagates out of the `finally` block). -/
theorem teardown_stops_at_first_failure (r : ExitReason)
    (destroyOk : Actor → Bool) (a b : Actor)
    (hca : createdAt r a = true) (hfail : destroyOk a = false)
    (hab : actorIndex a < actorIndex b) :
    b ∉ (main_teardown r destroyOk).1 := by
  intro hb
  rw [main_teardown, spawnOrder_split a] at hb
  have hmem := teardownSeq_after_fail (createdAt r) destroyOk a hca hfail
    (spawnOrder.take (actorIndex a)) (spawnOrder.drop (actorIndex a + 1)) hb
  have hle := mem_take_le_actorIndex hmem
  omega

/-- C6 amended witness: the vehicle's failing destroy prevents the
destroy of the last created camera. -/
theorem teardown_stops_at_first_failure_witness :
    Actor.camera3pvRgb ∉
      (main_teardown ExitReason.interrupt destroyFailEgo).1 :=
  teardown_stops_at_first_failure ExitReason.interrupt destroyFailEgo
    Actor.egoVehicle Actor.camera3pvRgb (by decide) (by decide) (by decide)

/-- C7 counterexample: with every actor created and every destroy
succeeding, the teardown trace destroys the vehicle first and each
attached sensor after it - not the claimed reverse dependency order in
which every sensor is destroyed before the vehicle. -/
theorem teardown_vehicle_first_cex :
    (main_teardown ExitReason.interrupt (fun _ => true)).1 =
      [Actor.egoVehicle, Actor.cameraMainRgb,
       Actor.cameraMainSemanticSegmentation, Actor.cameraMainDepth,
       Actor.camera3pvRgb] ∧
    (main_teardown ExitReason.interrupt (fun _ => true)).1.head? =
      some Actor.egoVehicle := by
  exact ⟨rfl, rfl⟩

/-- C7 amended: on every exit path, when destroys succeed, actors are
destroyed in spawn order - the vehicle first, then the sensors in attach
order (the spawn-order list filtered to the created actors). -/
theorem teardown_spawn_order (r : ExitReason) (destroyOk : Actor → Bool)
    (hok : ∀ a, destroyOk a = true) :
    (main_teardown r destroyOk).1 = spawnOrder.filter (createdAt r) := by
  rw [main_teardown, teardownSeq_all_ok (createdAt r) destroyOk hok]

/-- C7 amended witness: an interrupt with all actors created destroys
them in exactly the spawn order. -/
theorem teardown_spawn_order_witness :
    (main_teardown ExitReason.interrupt (fun _ => true)).1 =
      spawnOrder.filter (createdAt ExitReason.interrupt) :=
  teardown_spawn_order ExitReason.interrupt (fun _ => true) (fun _ => rfl)
